import Mathlib

/-!
# Formal model of the `autoscorer` scoring service

A shallow embedding, in Lean 4, of the parts of the `autoscorer` Python
repository that the verified claims are about:

* `src/autoscorer/scorers/registry.py` — the scorer registry
  (`register`, `get`, `get_instance`, `list_scorers`, `load_from_file`);
* `src/autoscorer/scorers/base_csv.py` and `classification.py` — the CSV
  scorer base class and the `classification_f1` scorer;
* `src/autoscorer/pipeline.py` — `score_only` and `run_and_score`;
* `src/autoscorer/executor/docker_executor.py` — image acquisition under a
  pull policy and network-policy mapping;
* `src/autoscorer/utils/task_store.py` — the task store upsert;
* `src/autoscorer/utils/artifacts.py` — artifact file metadata.

Python dictionaries are modelled as insertion-ordered association lists
(`List (String × β)`), Python floats as rationals (`ℚ`), raised exceptions
as `Except`, and the filesystem as an explicit association list of paths to
file records threaded through the functions that touch it.
-/

/-- Values that appear in Python error `details` dictionaries in the modelled
code: integers, strings, or lists of strings. -/

inductive DVal where
  | int (n : Int)
  | str (s : String)
  | strList (l : List String)

deriving DecidableEq, Repr

/-- Values of the `summary` mapping of a `Result`
(Python `Dict[str, Union[float, bool, str]]`). -/
inductive SVal where
  | num (q : ℚ)
  | bool (b : Bool)
  | str (s : String)

deriving DecidableEq, Repr

/-- Model of `AutoscorerError` (`utils/errors.py`): a typed exception with a
canonical code, a message and a `details` dictionary. -/
structure AErr where
  code : String
  message : String
  details : List (String × DVal) := []

deriving DecidableEq, Repr

/-- A Python exception escaping one of the modelled functions: either a typed
`AutoscorerError` or any other exception, carried as its message
(`KeyError`, `ValueError`, `FileNotFoundError`, `ImportError`, ...). -/
inductive PyExc where
  | typedE (e : AErr)
  | otherE (kind : String) (msg : String)

deriving DecidableEq, Repr

deriving instance DecidableEq for Except

/-- Insertion into a Python dict modelled as an ordered association list:
overwriting an existing key keeps its position, a new key is appended. -/
def dinsert (k : String) (v : β) (m : List (String × β)) : List (String × β) :=
  if (m.lookup k).isSome then
    m.map (fun p => if p.1 = k then (k, v) else p)
  else
    m ++ [(k, v)]

/-- Python `dict.update`: fold `dinsert` over the additions. -/
def dupdate (m adds : List (String × β)) : List (String × β) :=
  adds.foldl (fun acc p => dinsert p.1 p.2 acc) m

/-- A single ASCII apostrophe, used when reproducing Python message strings. -/
def pyQuote : String := String.singleton (Char.ofNat 39)

/-- Python `repr` of a string (single-quoted; the modelled strings contain no
characters that Python would escape). -/
def pyReprStr (s : String) : String := pyQuote ++ s ++ pyQuote

/-- Python `repr` of a list of strings, e.g. `['a', 'b']`. -/
def pyReprStrList (l : List String) : String :=
  "[" ++ String.intercalate ", " (l.map pyReprStr) ++ "]"

/-- ASCII lowercase of a character (`str.lower` restricted to the ASCII
strings the modelled code lowercases). -/
def pyLowerChar (c : Char) : Char :=
  if 65 ≤ c.toNat && c.toNat ≤ 90 then Char.ofNat (c.toNat + 32) else c

/-- Python `str.lower()` on ASCII strings. -/
def pyLower (s : String) : String := String.mk (s.data.map pyLowerChar)

/-!
## Scorer registry (`scorers/registry.py`)

A scorer class is modelled by the attributes the registry code inspects:
its Python class name (`__name__`), its optional static `name` attribute
(declared by the built-in scorers, e.g. `name = "classification_f1"`), its
optional `SCORER_NAME` attribute (consulted by `load_from_file`), whether it
has a `score` attribute, and whether calling its constructor raises
`KeyError` (relevant to the resolution fallback in `pipeline.score_only`).
-/

structure ScorerClass where
  pythonName : String
  nameAttr : Option String := none
  scorerNameAttr : Option String := none
  hasScore : Bool := true
  ctorKeyError : Bool := false

deriving DecidableEq, Repr

/-- An instance produced by calling a scorer class. -/
structure ScorerInstance where
  cls : ScorerClass

deriving DecidableEq, Repr

/-- `ScorerRegistry.__init__`: the `_scorers` name→class dict and the
`_loaded_files` path→mtime dict (watcher state is not modelled). -/
structure ScorerRegistry where
  scorers : List (String × ScorerClass) := []
  loadedFiles : List (String × ℚ) := []

deriving DecidableEq, Repr

/-- `ScorerRegistry.register`: reject classes without a `score` attribute
(`ValueError`), otherwise store the class under the name (replacement
allowed; logging not modelled). -/
def ScorerRegistry.register (reg : ScorerRegistry) (name : String)
    (c : ScorerClass) : Except PyExc ScorerRegistry :=
  if !c.hasScore then
    .error (.otherE "ValueError"
      ("Scorer class " ++ c.pythonName ++ " must have a " ++ pyQuote ++ "score"
        ++ pyQuote ++ " method"))
  else
    .ok { reg with scorers := dinsert name c reg.scorers }

/-- `ScorerRegistry.get`: dictionary lookup. -/
def ScorerRegistry.get (reg : ScorerRegistry) (name : String) :
    Option ScorerClass :=
  reg.scorers.lookup name

/-- `ScorerRegistry.get_instance`: raise `KeyError` when the name is not
registered, otherwise call the class; a constructor that itself raises
`KeyError` is modelled by the `ctorKeyError` flag. -/
def ScorerRegistry.getInstance (reg : ScorerRegistry) (name : String) :
    Except PyExc ScorerInstance :=
  match reg.get name with
  | none => .error (.otherE "KeyError" ("scorer " ++ pyReprStr name ++ " not found"))
  | some c =>
    if c.ctorKeyError then .error (.otherE "KeyError" "constructor")
    else .ok ⟨c⟩

/-- `ScorerRegistry.list_scorers`: snapshot mapping each registered name to
the class's `__name__`. -/
def ScorerRegistry.listScorers (reg : ScorerRegistry) : List (String × String) :=
  reg.scorers.map (fun p => (p.1, p.2.pythonName))

/-- A Python source file as seen by `load_from_file`: whether it exists, its
mtime, whether it has a `.py` suffix, whether executing it raises, and the
classes defined in it (in `inspect.getmembers` order, i.e. sorted by member
name), each paired with its member name. -/
structure PyFile where
  present : Bool := true
  mtime : ℚ
  isPy : Bool := true
  execFails : Bool := false
  classes : List (String × ScorerClass) := []

deriving DecidableEq, Repr

/-- `ScorerRegistry.load_from_file`.  The `inspect.getmembers` loop filters
classes of this module that have a `score` attribute and whose member name
does not start with an underscore; each passes the `score` check inside
`register`, so that call cannot raise here and is inlined as a dict insert.
Registration name: the `SCORER_NAME` attribute or the lowercased member
name. -/
def ScorerRegistry.loadFromFile (reg : ScorerRegistry) (filePath : String)
    (file : PyFile) (forceReload : Bool := false) :
    Except PyExc (List (String × ScorerClass) × ScorerRegistry) :=
  if !file.present then
    .error (.otherE "FileNotFoundError" ("Scorer file not found: " ++ filePath))
  else if !file.isPy then
    .error (.otherE "ValueError" ("File must be a Python file: " ++ filePath))
  else if !forceReload &&
      (match reg.loadedFiles.lookup filePath with
        | some recorded => decide (file.mtime ≤ recorded)
        | none => false) then
    .ok ([], reg)
  else if file.execFails then
    .error (.otherE "ImportError" ("Failed to execute module " ++ filePath))
  else
    let step := fun (acc : List (String × ScorerClass) × ScorerRegistry)
        (p : String × ScorerClass) =>
      if p.2.hasScore && !p.1.startsWith "_" then
        let scorerName := p.2.scorerNameAttr.getD (pyLower p.1)
        (dinsert scorerName p.2 acc.1,
          { acc.2 with scorers := dinsert scorerName p.2 acc.2.scorers })
      else acc
    let loaded := file.classes.foldl step ([], reg)
    .ok (loaded.1,
      { loaded.2 with loadedFiles := dinsert filePath file.mtime loaded.2.loadedFiles })

/-- `list(list_scorers().keys())` as used by `score_only`. -/
def availableScorers (reg : ScorerRegistry) : List String :=
  reg.listScorers.map (fun p => p.1)

/-- The `SCORER_NOT_FOUND` error raised by `score_only` when both resolution
paths fail (`pipeline.py` lines 91-97). -/
def scorerNotFoundErr (reg : ScorerRegistry) (name : String) : AErr :=
  { code := "SCORER_NOT_FOUND",
    message := "Scorer " ++ pyReprStr name ++ " not found. Available scorers: "
      ++ pyReprStrList (availableScorers reg),
    details := [("requested_scorer", .str name),
      ("available_scorers", .strList (availableScorers reg))] }

/-- Outcome of the scorer-resolution block of `score_only`
(`pipeline.py` lines 84-99), annotated with which branch produced the
scorer. -/
inductive ResolveOutcome where
  | okDirect (c : ScorerClass)
  | okFallback (c : ScorerClass)
  | notFound (e : AErr)
  | uncaught (e : PyExc)

deriving DecidableEq, Repr

/-- The scorer-resolution block of `score_only`: try `get_scorer` (i.e.
`get_instance`); on `KeyError` fall back to `get_scorer_class` (i.e. `get`);
if that returns `None`, raise `SCORER_NOT_FOUND`, otherwise instantiate the
class (a second constructor `KeyError` would escape uncaught). -/
def resolveScorer (reg : ScorerRegistry) (name : String) : ResolveOutcome :=
  match reg.getInstance name with
  | .ok inst => .okDirect inst.cls
  | .error (.otherE "KeyError" _) =>
    match reg.get name with
    | none => .notFound (scorerNotFoundErr reg name)
    | some c =>
      if c.ctorKeyError then .uncaught (.otherE "KeyError" "constructor")
      else .okFallback c
  | .error e => .uncaught e

/-- Whether the `get_scorer(spec.scorer)` call in `score_only` raises
`KeyError`. -/
def getScorerRaisesKeyError (reg : ScorerRegistry) (name : String) : Bool :=
  match reg.getInstance name with
  | .error (.otherE "KeyError" _) => true
  | _ => false

/-- The `ClassificationF1` scorer class (`scorers/classification.py`): Python
name `ClassificationF1`, static attribute `name = "classification_f1"`, a
`score` method, no `SCORER_NAME`. -/
def classificationF1Cls : ScorerClass :=
  { pythonName := "ClassificationF1", nameAttr := some "classification_f1" }

/-- The `ClassificationAccuracy` scorer class. -/
def classificationAccuracyCls : ScorerClass :=
  { pythonName := "ClassificationAccuracy", nameAttr := some "classification_accuracy" }

/-- Apply a registration that is known to succeed (the decorator
`@register(name)` on a class with a `score` method). -/
def registerD (reg : ScorerRegistry) (name : String) (c : ScorerClass) :
    ScorerRegistry :=
  match reg.register name c with
  | .ok r => r
  | .error _ => reg

/-- The registry state after importing `scorers/classification.py`, whose two
`@register` decorators run in order. -/
def classificationRegistry : ScorerRegistry :=
  registerD (registerD {} "classification_f1" classificationF1Cls)
    "classification_accuracy" classificationAccuracyCls

/-- The name the claim C7 expects `registry.list()` to report for a class:
its declared static `name` attribute, or a derived lowercase name. -/
def declaredOrDerivedName (c : ScorerClass) : String :=
  c.nameAttr.getD (pyLower c.pythonName)

/-- Claim C7 as stated: every registered name maps, in the `list()`
snapshot, to the class's declared (or derived) scorer name. -/
def listMatchesDeclaredName (reg : ScorerRegistry) : Prop :=
  ∀ n c, reg.get n = some c →
    reg.listScorers.lookup n = some (declaredOrDerivedName c)

/-!
## Task store (`utils/task_store.py`)

A row of the `tasks` table.  Timestamps are rationals standing for instants
(`_utc_now_iso` values; only their identity and ordering matter).  The
`result`/`error` arguments of `upsert` arrive already JSON-serialized
(`json.dumps` is modelled as having happened), so they are `Option String`
like the stored columns.
-/

structure TaskRecord where
  action : Option String := none
  workspace : Option String := none
  state : Option String := none
  resultJson : Option String := none
  errorJson : Option String := none
  createdAt : ℚ
  updatedAt : ℚ
  finishedAt : Option ℚ := none

deriving DecidableEq, Repr

abbrev TaskTable := List (String × TaskRecord)

/-- `None`-aware field update of the dynamic SQL `UPDATE`: a provided value
replaces the stored one, an absent (`None`) argument keeps it. -/
def keepOr (new old : Option α) : Option α :=
  match new with
  | some v => some v
  | none => old

/-- `TaskStore.upsert`: insert a fresh row when the task id is unknown
(`created_at = updated_at = now`, `finished_at` set only when `finished`);
otherwise update only the provided fields, always advance `updated_at`,
advance `finished_at` exactly when `finished` is set, and never touch
`created_at`. -/
def taskUpsert (store : TaskTable) (taskId : String)
    (action workspace state resultJson errorJson : Option String)
    (finished : Bool) (now : ℚ) : TaskTable :=
  match store.lookup taskId with
  | none =>
    dinsert taskId
      { action := action, workspace := workspace, state := state,
        resultJson := resultJson, errorJson := errorJson,
        createdAt := now, updatedAt := now,
        finishedAt := if finished then some now else none } store
  | some r =>
    dinsert taskId
      { action := keepOr action r.action,
        workspace := keepOr workspace r.workspace,
        state := keepOr state r.state,
        resultJson := keepOr resultJson r.resultJson,
        errorJson := keepOr errorJson r.errorJson,
        createdAt := r.createdAt, updatedAt := now,
        finishedAt := if finished then some now else r.finishedAt } store

/-!
## Network-policy mapping (`executor/docker_executor.py` lines 93-103)
-/

/-- `spec.container.network_policy or "none"`: Python `or` replaces both
`None` and the empty (falsy) string by the default. -/

def policyOrDefault (np : Option String) : String :=
  match np with
  | none => "none"
  | some s => if s = "" then "none" else s

/-- The network mode handed to the container engine: lowercase the policy,
pass `none`/`host`/`bridge` through, map `restricted` to `none` and
`allowlist` to `bridge`, and treat anything else as a named network. -/
def networkModeOf (np : Option String) : String :=
  let policy := pyLower (policyOrDefault np)
  if policy = "none" ∨ policy = "host" ∨ policy = "bridge" then policy
  else if policy = "restricted" then "none"
  else if policy = "allowlist" then "bridge"
  else policy

/-- The spec's policy→network-mode mapping, written from the spec's words
("`none`/`host`/`bridge` passed through; `restricted` → `none`;
`allowlist` → `bridge`; any other value passed to the engine as a named
network") for comparison against the code's `networkModeOf`. -/
def specPolicyToMode (policy : String) : String :=
  if policy = "none" then "none"
  else if policy = "host" then "host"
  else if policy = "bridge" then "bridge"
  else if policy = "restricted" then "none"
  else if policy = "allowlist" then "bridge"
  else policy

/-!
## Image acquisition (`executor/docker_executor.py` lines 115-269)

The engine-visible environment of a single `DockerExecutor.run` call:
the configured pull policy (already lowercased by `str(...).lower()`),
whether `_resolve_local_image` found the normalized reference locally,
which offline tarball names exist in the workspace, whether
`client.images.load` succeeds on each, and the outcome of each pull
attempt.
-/

structure ImageEnv where
  pullPolicy : String
  imagePresent : Bool
  tarPresent : String → Bool
  loadOk : String → Bool
  pullOk : Nat → Bool
  normalizedRef : String := "img:latest"
  ws : String := "/w"
  pullErrMsg : String := "pull failed"

/-- The recorded `action` of the image-resolution step. -/
inductive ImageAction where
  | useLocal
  | pulled
  | loadedTar
  | useLocalFallback
  | unknown

deriving DecidableEq, Repr

/-- The tarball names `_try_load_local_image` probes, in order. -/
def offlineTarNames : List String := ["image.tar", "image.tar.gz", "image.tgz"]

/-- `_try_load_local_image`: succeed on the first existing tarball that the
engine accepts; a failed `images.load` is logged and the loop continues. -/
def tryLoadLocalImage (env : ImageEnv) : Bool :=
  offlineTarNames.any (fun n => env.tarPresent n && env.loadOk n)

/-- The image-acquisition phase of `DockerExecutor.run`: decide whether to
pull, run up to three pull attempts with tarball/local fallback on terminal
failure, then apply the `never`-policy check (offline load or
`IMAGE_NOT_PRESENT`).  Returns the recorded action on success. -/
def acquireImage (env : ImageEnv) : Except AErr ImageAction :=
  let shouldPull :=
    env.pullPolicy == "always" || (env.pullPolicy == "ifnotpresent" && !env.imagePresent)
  let afterPull : Except AErr ImageAction :=
    if shouldPull then
      if env.pullOk 0 || env.pullOk 1 || env.pullOk 2 then .ok .pulled
      else if tryLoadLocalImage env then .ok .loadedTar
      else if env.imagePresent then .ok .useLocalFallback
      else
        .error
          { code := "IMAGE_PULL_FAILED",
            message := "failed to pull image " ++ env.normalizedRef
              ++ " after 3 attempts: " ++ env.pullErrMsg,
            details := [("policy", .str env.pullPolicy), ("attempts", .int 3),
              ("last_error", .str env.pullErrMsg)] }
    else .ok (if env.imagePresent then .useLocal else .unknown)
  match afterPull with
  | .error e => .error e
  | .ok act =>
    if env.pullPolicy == "never" && !env.imagePresent then
      if tryLoadLocalImage env then .ok .loadedTar
      else
        .error
          { code := "IMAGE_NOT_PRESENT",
            message := "image " ++ pyReprStr env.normalizedRef
              ++ " not present locally and IMAGE_PULL_POLICY=never; "
              ++ "please pre-pull it or place an image.tar in " ++ env.ws }
    else .ok act

/-- C8 (witness): updating only the state of a stored record keeps its other
fields, keeps `created_at`, advances `updated_at`, and leaves `finished_at`
unset because `finished` is not passed. -/
def c8StoredRecord : TaskRecord :=
  { action := some "run", workspace := some "/w", state := some "SUBMITTED",
    createdAt := 1, updatedAt := 1 }

/-- The C4 witness environment with an `image.tar` in the workspace. -/
def c4EnvTar : ImageEnv :=
  { pullPolicy := "never", imagePresent := false,
    tarPresent := fun n => n == "image.tar", loadOk := fun _ => true,
    pullOk := fun _ => false }

/-- The C4 witness environment with no offline tarball. -/
def c4EnvNoTar : ImageEnv :=
  { pullPolicy := "never", imagePresent := false,
    tarPresent := fun _ => false, loadOk := fun _ => true,
    pullOk := fun _ => false }

/-!
## CSV loading and the classification scorer
(`scorers/base_csv.py`, `scorers/classification.py`)

A CSV file is modelled at the level of `csv.DictReader` output: the ordered
list of `(id, label)` rows.  The header/required-column checks of
`_load_and_validate_csv` concern files whose rows lack these columns and
cannot fire on the modelled row lists; the remaining checks (existence,
falsy id, duplicate id, no data rows) are embedded.
-/

abbrev CsvRow := String × String

structure CsvFile where
  present : Bool := true
  rows : List CsvRow := []

deriving DecidableEq, Repr

/-- Python `str.strip()` (ASCII whitespace). -/
def pyIsSpace (c : Char) : Bool := c == ' ' || c == '\t' || c == '\n' || c == '\r'

def pyStrip (s : String) : String :=
  String.mk (((s.data.dropWhile pyIsSpace).reverse.dropWhile pyIsSpace).reverse)

/-- The row loop of `_load_and_validate_csv`: reject a falsy (empty) id and
a duplicate id, accumulating rows in insertion order (`i` is the 0-based
row index; messages quote 1-based line numbers counting the header). -/
def loadCsvLoop (path : String) : List CsvRow → Nat → List CsvRow →
    Except AErr (List CsvRow)
  | [], _, acc => .ok acc
  | r :: rest, i, acc =>
    if r.1 = "" then
      .error
        { code := "BAD_FORMAT",
          message := "Missing ID in row " ++ toString (i + 2) ++ " of " ++ path }
    else if (acc.lookup r.1).isSome then
      .error
        { code := "MISMATCH",
          message := "Duplicate ID in " ++ path ++ ": " ++ r.1 }
    else
      loadCsvLoop path rest (i + 1) (acc ++ [r])

/-- `BaseCSVScorer._load_and_validate_csv` on a parsed file. -/
def loadAndValidateCsv (path : String) (file : CsvFile) :
    Except AErr (List CsvRow) :=
  if !file.present then
    .error { code := "MISSING_FILE", message := "File not found: " ++ path }
  else
    match loadCsvLoop path file.rows 0 [] with
    | .error e => .error e
    | .ok data =>
      if data.isEmpty then
        .error
          { code := "BAD_FORMAT",
            message := "CSV file contains no data rows: " ++ path }
      else .ok data

/-- Lexicographic comparison of strings by code point, as Python compares
strings. -/
def charListLt : List Char → List Char → Bool
  | _, [] => false
  | [], _ :: _ => true
  | a :: as, b :: bs =>
    if a.toNat < b.toNat then true
    else if b.toNat < a.toNat then false
    else charListLt as bs

def pyStrLt (a b : String) : Bool := charListLt a.data b.data

/-- Insertion sort on strings (Python `sorted` for the unique id/label lists
compared here; ties cannot occur between distinct keys). -/
def insertSorted (s : String) : List String → List String
  | [] => [s]
  | x :: xs => if pyStrLt x s then x :: insertSorted s xs else s :: x :: xs

def sortStrings (l : List String) : List String := l.foldr insertSorted []

/-- Python `set(...)` of a string list, as a duplicate-free list. -/
def setList (l : List String) : List String :=
  l.foldl (fun acc x => if acc.contains x then acc else acc ++ [x]) []

/-- `BaseCSVScorer._validate_id_consistency`: with both id lists
duplicate-free (guaranteed by `loadCsvLoop`), the Python set inequality
`gt_ids != pred_ids` holds exactly when some id is missing from or extra in
the predictions.  The message enumerates up to five missing and five extra
ids (in Python `repr` form); the details carry the four counts. -/
def validateIdConsistency (gt pred : List CsvRow) : Except AErr Unit :=
  let gtIds := gt.map (fun r => r.1)
  let predIds := pred.map (fun r => r.1)
  let missing := sortStrings (gtIds.filter (fun i => !predIds.contains i))
  let extra := sortStrings (predIds.filter (fun i => !gtIds.contains i))
  if missing.isEmpty && extra.isEmpty then .ok ()
  else
    let parts :=
      (if !missing.isEmpty then
        ["Missing in predictions: " ++ pyReprStrList (missing.take 5)] else [])
      ++ (if !extra.isEmpty then
        ["Extra in predictions: " ++ pyReprStrList (extra.take 5)] else [])
    .error
      { code := "MISMATCH",
        message := "ID mismatch between GT and predictions. "
          ++ String.intercalate "; " parts,
        details := [("gt_count", .int (gtIds.length : Int)),
          ("pred_count", .int (predIds.length : Int)),
          ("missing_in_pred", .int (missing.length : Int)),
          ("extra_in_pred", .int (extra.length : Int))] }

/-- `ClassificationF1._validate_data_consistency`: id consistency, then the
empty-label checks over GT and predictions in insertion order. -/
def validateDataConsistency (gt pred : List CsvRow) : Except AErr Unit := do
  let _u ← validateIdConsistency gt pred
  match gt.find? (fun r => pyStrip r.2 == "") with
  | some r =>
    .error { code := "BAD_FORMAT", message := "Empty label in GT for ID: " ++ r.1 }
  | none =>
    match pred.find? (fun r => pyStrip r.2 == "") with
    | some r =>
      .error
        { code := "BAD_FORMAT",
          message := "Empty label in predictions for ID: " ++ r.1 }
    | none => .ok ()

/-- Per-label F1 of `_compute_f1_metrics` (Python floats as `ℚ`). -/
def f1ForLabel (gt pred : List CsvRow) (label : String) : ℚ :=
  let predLabel := fun k => (pred.lookup k).getD ""
  let gtLabel := fun k => (gt.lookup k).getD ""
  let tp : ℚ := ((gt.filter (fun r => r.2 == label && predLabel r.1 == label)).length : ℚ)
  let fp : ℚ := ((pred.filter (fun r => r.2 == label && gtLabel r.1 != label)).length : ℚ)
  let fngt : ℚ := ((gt.filter (fun r => r.2 == label && predLabel r.1 != label)).length : ℚ)
  let precision := if tp + fp > 0 then tp / (tp + fp) else 0
  let recallV := if tp + fngt > 0 then tp / (tp + fngt) else 0
  if precision + recallV > 0 then 2 * precision * recallV / (precision + recallV) else 0

/-- `sorted(set(gt_labels.values()))`. -/
def uniqueSortedLabels (gt : List CsvRow) : List String :=
  sortStrings (setList (gt.map (fun r => r.2)))

/-- `ClassificationF1._compute_f1_metrics`. -/
def computeF1Metrics (gt pred : List CsvRow) : List (String × ℚ) :=
  let labels := uniqueSortedLabels gt
  let perLabel := labels.map (fun l => ("f1_" ++ l, f1ForLabel gt pred l))
  let macroF1 :=
    if labels.length = 0 then 0
    else ((perLabel.map (fun p => p.2)).sum) / (labels.length : ℚ)
  [("f1_macro", macroF1), ("num_labels", (labels.length : ℚ)),
    ("total_samples", (gt.length : ℚ))] ++ perLabel

/-!
## Filesystem, artifacts and the Result document
(`utils/artifacts.py`, `schemas/result.py`)

A file is its content (CSV rows where the scorers read it, otherwise
opaque) together with the size and SHA-256 that `ArtifactManager.file_info`
reports.  Serialization of a result document to bytes (and hence the size
and hash of the written file) is abstracted by an `encode` parameter.
-/

structure FileInfo where
  path : String
  size : Nat
  sha256 : String

deriving DecidableEq, Repr

inductive FileContent where
  | csv (rows : List CsvRow)
  | jsonDoc
  | binary

deriving DecidableEq, Repr

structure FileRec where
  content : FileContent := .binary
  size : Nat := 0
  sha256 : String := ""

deriving DecidableEq, Repr

abbrev FS := List (String × FileRec)

def fsExists (fs : FS) (p : String) : Bool := (fs.lookup p).isSome

/-- `ArtifactManager.file_info` on a file that may be absent (absent files
give Python `{}`; the pipeline only calls this behind existence guards). -/
def fileInfoOpt (fs : FS) (p : String) : Option FileInfo :=
  (fs.lookup p).map (fun r => { path := p, size := r.size, sha256 := r.sha256 })

/-- `ArtifactManager.file_info` where the caller has ensured existence. -/
def fileInfo (fs : FS) (p : String) : FileInfo :=
  (fileInfoOpt fs p).getD { path := p, size := 0, sha256 := "" }

def readCsv (fs : FS) (p : String) : CsvFile :=
  match fs.lookup p with
  | none => { present := false }
  | some fr =>
    { present := true,
      rows := match fr.content with | .csv rows => rows | _ => [] }

def writeFile (fs : FS) (p : String) (r : FileRec) : FS := dinsert p r fs

/-- The characters of a path after the last slash (`Path.name`). -/
def baseName (p : String) : String :=
  String.mk ((p.data.reverse.takeWhile (fun c => c != '/')).reverse)

def strStartsWith (s pre : String) : Bool := s.data.take pre.data.length == pre.data

def strEndsWith (s suf : String) : Bool :=
  s.data.reverse.take suf.data.length == suf.data.reverse

/-- Python `needle in hay` on strings. -/
def strHasSubstr (hay needle : String) : Bool :=
  (List.range (hay.data.length + 1)).any
    (fun i => (hay.data.drop i).take needle.data.length == needle.data)

/-- The glob suffixes of the `score_only` call to
`ArtifactManager.collect_dir`. -/
def artifactPatterns : List String := [".json", ".csv", ".txt", ".png", ".svg"]

/-- `ArtifactManager.collect_dir`: for each pattern in order, each matching
file under the directory (recursively) is keyed by its base name. -/
def collectDir (fs : FS) (dir : String) : List (String × FileInfo) :=
  artifactPatterns.foldl (fun acc suf =>
    (fs.filter (fun p => strStartsWith p.1 (dir ++ "/") && strEndsWith p.1 suf)).foldl
      (fun acc2 p =>
        dinsert (baseName p.1) { path := p.1, size := p.2.size, sha256 := p.2.sha256 } acc2)
      acc) []

/-- `make_error` (`utils/errors.py`): the flat error payload
`{ok: False, stage, code, message, details?, logs?}`; the constant
`ok: False` entry is implicit in this shape. -/
structure ErrPayload where
  stage : String
  code : String
  message : String
  details : List (String × DVal) := []
  logs : Option String := none

deriving DecidableEq, Repr

def makeError (stage code message : String)
    (details : List (String × DVal) := []) (logsPath : Option String := none) :
    ErrPayload :=
  { stage := stage, code := code, message := message, details := details,
    logs := logsPath }

/-- The `Result` document (`schemas/result.py`), with Python floats as `ℚ`,
artifact entries as `file_info` records, and the optional `error` object. -/
structure ResultM where
  summary : List (String × SVal) := []
  metrics : List (String × ℚ) := []
  artifacts : List (String × FileInfo) := []
  timing : List (String × ℚ) := []
  resources : List (String × ℚ) := []
  versioning : List (String × String) := []
  error : Option ErrPayload := none

deriving DecidableEq, Repr

def liftTyped : Except AErr α → Except PyExc α
  | .ok a => .ok a
  | .error e => .error (.typedE e)

/-!
## The `classification_f1` scorer (`scorers/classification.py`)
-/

def gtPath (ws : String) : String := ws ++ "/input/gt.csv"

def predPath (ws : String) : String := ws ++ "/output/pred.csv"

/-- `ClassificationF1.validate`. -/
def classificationValidate (ws : String) (fs : FS) : Except AErr Unit := do
  let gt ← loadAndValidateCsv (gtPath ws) (readCsv fs (gtPath ws))
  let pred ← loadAndValidateCsv (predPath ws) (readCsv fs (predPath ws))
  validateDataConsistency gt pred

/-- `_make_classification_artifacts`: writes `confusion_matrix.json` and
`error_cases.csv` under `output/artifacts` (their byte-level contents, sizes
and hashes are abstracted; the optional matplotlib plot is skipped as in an
environment without the soft dependency). -/
def classificationArtifactsWrite (ws : String) (fs : FS) : FS :=
  writeFile
    (writeFile fs (ws ++ "/output/artifacts/confusion_matrix.json")
      { content := .jsonDoc })
    (ws ++ "/output/artifacts/error_cases.csv") { content := .csv [] }

/-- `ClassificationF1.score`: load and cross-validate both CSVs, compute the
F1 metrics, write the artifact files, and build the standardized summary
(`score`, `f1_macro`, the letter `rank` at 0.9/0.8/0.7, and `pass` against
`params["pass_threshold"]` defaulting to 0.8). -/
def classificationScore (ws : String) (params : List (String × ℚ))
    (nowIso : String) (fs : FS) : Except AErr (ResultM × FS) := do
  let gt ← loadAndValidateCsv (gtPath ws) (readCsv fs (gtPath ws))
  let pred ← loadAndValidateCsv (predPath ws) (readCsv fs (predPath ws))
  let _u ← validateDataConsistency gt pred
  let metrics := computeF1Metrics gt pred
  let fs2 := classificationArtifactsWrite ws fs
  let f1 := (metrics.lookup "f1_macro").getD 0
  let rank := if f1 ≥ 9/10 then "A" else if f1 ≥ 8/10 then "B"
    else if f1 ≥ 7/10 then "C" else "D"
  let threshold := (params.lookup "pass_threshold").getD (8/10)
  .ok
    ({ summary := [("score", SVal.num f1), ("f1_macro", SVal.num f1),
         ("rank", SVal.str rank), ("pass", SVal.bool (decide (f1 ≥ threshold)))],
       metrics := metrics,
       versioning := [("scorer", "classification_f1"), ("version", "2.0.0"),
         ("algorithm", "F1-Score Macro Average"), ("timestamp", nowIso)] }, fs2)

/-!
## `pipeline.score_only` and `pipeline.run_and_score`

`score_only` is modelled over: the registry (scorer resolution), a mapping
from resolved scorer classes to their behavior (`validate`/`score` as
functions of workspace, params and filesystem), an `encode` function
standing for JSON serialization of a result document to file bytes
(size/hash), and a clock giving the values of the successive
`time.perf_counter()` reads `t0 ≤ v0 ≤ v1 ≤ c0 ≤ c1 ≤ s0 ≤ s1 ≤ tEnd`.
The opportunistic `custom_scorers` directory loading is non-fatal and the
modelled workspaces have no such directories; the `meta.json` manifest
arrives already parsed (`JobSpec.from_workspace`).
-/

structure ScorerImpl where
  hasValidate : Bool := true
  validate : String → List (String × ℚ) → FS → Except PyExc Unit
  score : String → List (String × ℚ) → FS → Except PyExc (ResultM × FS)

/-- The behavior of `ClassificationF1` instances (`nowIso` is the
`_get_iso_timestamp()` value recorded in `versioning`). -/
def classificationF1Impl (nowIso : String) : ScorerImpl :=
  { validate := fun ws _params fs => liftTyped (classificationValidate ws fs),
    score := fun ws params fs => liftTyped (classificationScore ws params nowIso fs) }

/-- `time.perf_counter()` values at the eight read points of `score_only`. -/
structure Clock where
  t0 : ℚ
  v0 : ℚ
  v1 : ℚ
  c0 : ℚ
  c1 : ℚ
  s0 : ℚ
  s1 : ℚ
  tEnd : ℚ

deriving DecidableEq, Repr

/-- Monotonicity of the perf counter across the eight reads. -/
def Clock.mono (ck : Clock) : Prop :=
  ck.t0 ≤ ck.v0 ∧ ck.v0 ≤ ck.v1 ∧ ck.v1 ≤ ck.c0 ∧ ck.c0 ≤ ck.c1
    ∧ ck.c1 ≤ ck.s0 ∧ ck.s0 ≤ ck.s1 ∧ ck.s1 ≤ ck.tEnd

/-- The parsed `meta.json` fields `score_only` consumes. -/
structure JobSpecM where
  jobId : String := "job-1"
  scorer : String

deriving DecidableEq, Repr

def resultJsonPath (ws : String) : String := ws ++ "/output/result.json"

/-- The scorer-specific validation step of `score_only`: run `validate` when
the scorer exposes it, re-raise `AutoscorerError`s, wrap any other
exception as `DATA_VALIDATION_ERROR`, and return the measured
`validate_time` (0.0 when there is no `validate` hook). -/
def validateStep (sc : ScorerImpl) (ck : Clock) (ws : String)
    (params : List (String × ℚ)) (fs : FS) : Except PyExc ℚ :=
  if sc.hasValidate then
    match sc.validate ws params fs with
    | .ok _ => .ok (ck.v1 - ck.v0)
    | .error (.typedE e) => .error (.typedE e)
    | .error (.otherE _ m) =>
      .error (.typedE { code := "DATA_VALIDATION_ERROR", message := m })
  else .ok 0

/-- The result-assembly tail of `score_only` (lines 116-175): merge timing,
discover input/prediction/artifact files, write `result.json`, append the
`result_json` self-entry plus `save_time`/`total_time`, and rewrite the
file. -/
def assembleResult (encode : ResultM → FileRec) (ck : Clock) (ws : String)
    (tValidate : ℚ) (result : ResultM) (fs1 : FS) : ResultM × String × FS :=
  let tCompute := ck.c1 - ck.c0
  let out := resultJsonPath ws
  let timing := dupdate result.timing
    [("validate_time", tValidate), ("compute_time", tCompute)]
  let inputGt := if fsExists fs1 (ws ++ "/input/gt.csv") then ws ++ "/input/gt.csv"
    else ws ++ "/input/gt.json"
  let outputPred := if fsExists fs1 (ws ++ "/output/pred.csv") then ws ++ "/output/pred.csv"
    else ws ++ "/output/pred.json"
  let arts0 : List (String × FileInfo) :=
    (match fileInfoOpt fs1 inputGt with
      | some i => [("input_gt", i)]
      | none => [])
    ++ (match fileInfoOpt fs1 outputPred with
      | some i => [("output_pred", i)]
      | none => [])
  let arts := dupdate arts0
    ((collectDir fs1 (ws ++ "/output/artifacts")).map
      (fun p => ("artifacts/" ++ p.1, p.2)))
  let data1 : ResultM :=
    { result with artifacts := dupdate result.artifacts arts, timing := timing }
  let fs2 := writeFile fs1 out (encode data1)
  let tSave := ck.s1 - ck.s0
  let arts2 := dinsert "result_json" (fileInfo fs2 out) data1.artifacts
  let tTotal := ck.tEnd - ck.t0
  let timing2 := dinsert "total_time" tTotal (dinsert "save_time" tSave data1.timing)
  let data2 := { data1 with artifacts := arts2, timing := timing2 }
  let fs3 := writeFile fs2 out (encode data2)
  (data2, out, fs3)

/-- `score_only` after scorer resolution: validate, score, assemble. -/
def scoreOnlyRest (sc : ScorerImpl) (encode : ResultM → FileRec) (ck : Clock)
    (ws : String) (params : List (String × ℚ)) (fs : FS) :
    Except PyExc (ResultM × String × FS) :=
  match validateStep sc ck ws params fs with
  | .error e => .error e
  | .ok tValidate =>
    match sc.score ws params fs with
    | .error e => .error e
    | .ok (result, fs1) =>
      .ok (assembleResult encode ck ws tValidate result fs1)

/-- The scorer name `score_only` resolves: the override when given,
otherwise `spec.scorer` from the manifest. -/
def scorerNameOf (meta : JobSpecM) (scorerOverride : Option String) : String :=
  match scorerOverride with
  | some s => s
  | none => meta.scorer

/-- `pipeline.score_only`. -/
def scoreOnly (reg : ScorerRegistry) (impl : ScorerClass → ScorerImpl)
    (encode : ResultM → FileRec) (ck : Clock) (ws : String) (meta : JobSpecM)
    (params : List (String × ℚ)) (scorerOverride : Option String) (fs : FS) :
    Except PyExc (ResultM × String × FS) :=
  match resolveScorer reg (scorerNameOf meta scorerOverride) with
  | .notFound e => .error (.typedE e)
  | .uncaught e => .error e
  | .okDirect c => scoreOnlyRest (impl c) encode ck ws params fs
  | .okFallback c => scoreOnlyRest (impl c) encode ck ws params fs

/-- The value `run_and_score` returns: `make_error("run", ...)` on a run
failure, `{ok: True, result, result_path}` on success, and the dump of a
`Result(error=make_error("score", ...))` on a score failure (the three
JSON shapes of `pipeline.py` lines 178-205). -/
inductive RSOut where
  | runFailure (payload : ErrPayload)
  | success (result : ResultM) (resultPath : String)
  | scoreFailure (resultDump : ResultM)

deriving DecidableEq, Repr

/-- `pipeline.run_and_score`: the run stage (abstracted to its outcome)
followed by `score_only`.  Both stages are wrapped in handlers, so the
function is total — no exception escapes.  A score failure additionally
persists `output/result.json` holding only the `error` object; a run
failure persists nothing. -/
def runAndScore (runOutcome : Except PyExc Unit) (reg : ScorerRegistry)
    (impl : ScorerClass → ScorerImpl) (encode : ResultM → FileRec) (ck : Clock)
    (ws : String) (meta : JobSpecM) (params : List (String × ℚ))
    (scorerOverride : Option String) (fs : FS) : RSOut × FS :=
  match runOutcome with
  | .error (.typedE e) =>
    (.runFailure (makeError "run" e.code e.message e.details
      (some (ws ++ "/logs/container.log"))), fs)
  | .error (.otherE _ m) =>
    (.runFailure (makeError "run" "EXEC_ERROR" m []
      (some (ws ++ "/logs/container.log"))), fs)
  | .ok _ =>
    match scoreOnly reg impl encode ck ws meta params scorerOverride fs with
    | .ok (r, out, fs3) => (.success r out, fs3)
    | .error (.typedE e) =>
      let res : ResultM := { error := some (makeError "score" e.code e.message e.details none) }
      (.scoreFailure res, writeFile fs (resultJsonPath ws) (encode res))
    | .error (.otherE _ m) =>
      let res : ResultM := { error := some (makeError "score" "SCORE_ERROR" m [] none) }
      (.scoreFailure res, writeFile fs (resultJsonPath ws) (encode res))

/-!
## Concrete runs for the end-to-end scenarios

The workspace `/w` of the classification happy-path scenario: `meta.json`
names scorer `classification_f1`, `input/gt.csv` holds rows
`(1,A),(2,B),(3,A)` and `output/pred.csv` is identical.  `encodeEx` stands
for JSON serialization (any size/hash works for the claims), `clockEx` is a
concrete monotone perf-counter trace, and `implEx` associates the
registered classification class with its embedded behavior.
-/

def wsEx : String := "/w"

def gtRowsEx : List CsvRow := [("1", "A"), ("2", "B"), ("3", "A")]

def fsEx : FS :=
  [(gtPath wsEx, { content := .csv gtRowsEx, size := 20, sha256 := "gt-sha" }),
   (predPath wsEx, { content := .csv gtRowsEx, size := 20, sha256 := "pred-sha" })]

def encodeEx : ResultM → FileRec :=
  fun _ => { content := .jsonDoc, size := 64, sha256 := "res-sha" }

def clockEx : Clock :=
  { t0 := 0, v0 := 1, v1 := 2, c0 := 3, c1 := 4, s0 := 5, s1 := 6, tEnd := 7 }

def implEx : ScorerClass → ScorerImpl := fun _ => classificationF1Impl "TS"

def metaEx : JobSpecM := { scorer := "classification_f1" }

def scoreOnlyC3 : Except PyExc (ResultM × String × FS) :=
  scoreOnly classificationRegistry implEx encodeEx clockEx wsEx metaEx [] none fsEx

def c3Payload : ResultM × String × FS :=
  match scoreOnlyC3 with
  | .ok p => p
  | .error _ => ({}, "", [])

/-- The C5 workspace: predictions with ground-truth id 3 replaced by 4. -/
def predRowsC5 : List CsvRow := [("1", "A"), ("2", "B"), ("4", "A")]

def fsC5 : FS :=
  [(gtPath wsEx, { content := .csv gtRowsEx, size := 20, sha256 := "gt-sha" }),
   (predPath wsEx, { content := .csv predRowsC5, size := 20, sha256 := "pred-sha" })]

def scoreOnlyC5 : Except PyExc (ResultM × String × FS) :=
  scoreOnly classificationRegistry implEx encodeEx clockEx wsEx metaEx [] none fsC5

/-- The error `scoreOnlyC5` raises. -/
def c5Err : AErr :=
  match scoreOnlyC5 with
  | .error (.typedE e) => e
  | _ => { code := "", message := "" }

/-- Whether any value of an error `details` dictionary names the given id:
as a string value containing it, or as a member of a string-list value
(integer values name no id). -/
def detailsMention (d : List (String × DVal)) (s : String) : Bool :=
  d.any (fun kv =>
    match kv.2 with
    | .int _ => false
    | .str t => strHasSubstr t s
    | .strList l => l.contains s)

/-- The run-stage outcome of the C1 counterexample: a typed executor
failure. -/
def runErrC1 : Except PyExc Unit :=
  .error (.typedE
    { code := "TIMEOUT_ERROR",
      message := "container execution timed out after 1800 seconds" })

/-- `run_and_score` on a workspace with no `output/result.json`, whose run
stage fails. -/
def runAndScoreC1 : RSOut × FS :=
  runAndScore runErrC1 classificationRegistry implEx encodeEx clockEx wsEx metaEx [] none []

theorem lookup_cons_eq (a : String) (p : String × β) (l : List (String × β)) :
    ((p :: l).lookup a) = if a = p.1 then some p.2 else l.lookup a := by
  cases p with
  | mk k v =>
    simp only [List.lookup]
    by_cases h : a = k
    · simp [h]
    · have : (a == k) = false := by simpa using h
      simp [this, h]

theorem lookup_overwrite_found (k : String) (v : β) (m : List (String × β))
    (hmem : (m.lookup k).isSome = true) :
    (m.map (fun p => if p.1 = k then (k, v) else p)).lookup k = some v := by
  induction m with
  | nil => simp [List.lookup] at hmem
  | cons hd tl ih =>
    by_cases hk : hd.1 = k
    · simp [List.map, hk, lookup_cons_eq]
    · rw [List.map_cons, if_neg hk, lookup_cons_eq, if_neg (fun h => hk h.symm)]
      apply ih
      rw [lookup_cons_eq, if_neg (fun h => hk h.symm)] at hmem
      exact hmem

theorem lookup_overwrite_other (k a : String) (v : β) (m : List (String × β))
    (hne : a ≠ k) :
    (m.map (fun p => if p.1 = k then (k, v) else p)).lookup a = m.lookup a := by
  induction m with
  | nil => simp
  | cons hd tl ih =>
    by_cases hk : hd.1 = k
    · rw [List.map_cons, if_pos hk, lookup_cons_eq, lookup_cons_eq, hk,
        if_neg hne, if_neg hne]
      exact ih
    · rw [List.map_cons, if_neg hk, lookup_cons_eq, lookup_cons_eq]
      by_cases ha : a = hd.1
      · simp [ha]
      · rw [if_neg ha, if_neg ha]
        exact ih

theorem lookup_append_last (k a : String) (v : β) (m : List (String × β)) :
    ((m ++ [(k, v)]).lookup a) = if a = k then some ((m.lookup a).getD v) else m.lookup a := by
  induction m with
  | nil =>
    rw [List.nil_append, lookup_cons_eq]
    by_cases ha : a = k <;> simp [ha, List.lookup]
  | cons hd tl ih =>
    rw [List.cons_append, lookup_cons_eq, lookup_cons_eq]
    by_cases ha : a = hd.1
    · by_cases hk : a = k <;> simp [ha, hk]
    · rw [if_neg ha, if_neg ha, ih]

theorem lookup_dinsert_self (k : String) (v : β) (m : List (String × β)) :
    (dinsert k v m).lookup k = some v := by
  unfold dinsert
  split
  · next hmem => exact lookup_overwrite_found k v m hmem
  · next hmem =>
    rw [lookup_append_last, if_pos rfl]
    rcases h : m.lookup k with _ | w
    · rfl
    · rw [h] at hmem
      simp at hmem

theorem lookup_dinsert_other (k a : String) (v : β) (m : List (String × β))
    (hne : a ≠ k) : (dinsert k v m).lookup a = m.lookup a := by
  unfold dinsert
  split
  · exact lookup_overwrite_other k a v m hne
  · rw [lookup_append_last, if_neg hne]

/-- Lookup through the `list_scorers` projection. -/
theorem lookup_map_pythonName (l : List (String × ScorerClass)) (n : String)
    (c : ScorerClass) (h : l.lookup n = some c) :
    (l.map (fun p => (p.1, p.2.pythonName))).lookup n = some c.pythonName := by
  induction l with
  | nil => simp [List.lookup] at h
  | cons hd tl ih =>
    rw [List.map_cons, lookup_cons_eq]
    rw [lookup_cons_eq] at h
    by_cases hn : n = hd.1
    · rw [if_pos hn] at h
      cases h
      simp [hn]
    · rw [if_neg hn] at h
      rw [if_neg hn]
      exact ih h

/-- C7 (counterexample): in the registry produced by the built-in
classification registrations, `list()["classification_f1"]` is the Python
class name `"ClassificationF1"`, not the declared static name
`"classification_f1"`, so the claimed invariant fails. -/
theorem listScorers_declaredName_counterexample :
    ¬ listMatchesDeclaredName classificationRegistry := by
  intro h
  have h2 := h "classification_f1" classificationF1Cls (by decide)
  revert h2
  decide

/-- C7 (amended): for every registered scorer name `n`,
`registry.list()[n]` equals `registry.get_class(n).__name__`, the Python
class name of the registered class. -/
theorem listScorers_eq_pythonName (reg : ScorerRegistry) (n : String)
    (c : ScorerClass) (h : reg.get n = some c) :
    reg.listScorers.lookup n = some c.pythonName := by
  unfold ScorerRegistry.get at h
  unfold ScorerRegistry.listScorers
  exact lookup_map_pythonName reg.scorers n c h

/-- C7 (witness): the amended statement evaluated on the built-in
classification registry. -/
theorem listScorers_eq_pythonName_witness :
    classificationRegistry.get "classification_f1" = some classificationF1Cls
    ∧ classificationRegistry.listScorers.lookup "classification_f1"
        = some "ClassificationF1" := by
  refine ⟨by decide, ?_⟩
  have := listScorers_eq_pythonName classificationRegistry "classification_f1"
    classificationF1Cls (by decide)
  simpa using this

/-- C6: a repeated `load_from_file(path, force=false)` is a no-op while the
recorded mtime is at least the on-disk mtime: it returns an empty mapping
and the registry (both the name→class entries and the recorded mtimes) is
returned unchanged. -/
theorem loadFromFile_noop_when_mtime_recorded
    (reg : ScorerRegistry) (filePath : String) (file : PyFile) (recorded : ℚ)
    (hp : file.present = true) (hpy : file.isPy = true)
    (hrec : reg.loadedFiles.lookup filePath = some recorded)
    (hge : file.mtime ≤ recorded) :
    reg.loadFromFile filePath file false = .ok ([], reg) := by
  unfold ScorerRegistry.loadFromFile
  rw [hp, hpy, hrec]
  simp [hge]

/-- C6 (witness): a registry that has recorded mtime 5 for `s.py` skips a
reload when the on-disk mtime is 3. -/
theorem loadFromFile_noop_witness :
    (ScorerRegistry.mk [] [("s.py", 5)]).loadFromFile "s.py"
        { mtime := 3 } false
      = .ok ([], ScorerRegistry.mk [] [("s.py", 5)]) :=
  loadFromFile_noop_when_mtime_recorded
    (ScorerRegistry.mk [] [("s.py", 5)]) "s.py" { mtime := 3 } 5
    rfl rfl (by decide) (by norm_num)

/-- C9: when the class registered under a name (if any) has a constructor
that does not raise `KeyError`, then (1) `get_scorer` raises `KeyError`
exactly when `get_scorer_class` returns `None`, (2) the fallback branch of
`score_only` never produces a scorer, and (3) a `KeyError` from
`get_scorer` always ends in the `SCORER_NOT_FOUND` error listing the
available scorer names. -/
theorem resolveScorer_keyError_means_not_found
    (reg : ScorerRegistry) (name : String)
    (hctor : ∀ c, reg.get name = some c → c.ctorKeyError = false) :
    ((getScorerRaisesKeyError reg name = true) ↔ reg.get name = none)
    ∧ (∀ c, resolveScorer reg name ≠ .okFallback c)
    ∧ (getScorerRaisesKeyError reg name = true →
        resolveScorer reg name = .notFound (scorerNotFoundErr reg name)
        ∧ (scorerNotFoundErr reg name).code = "SCORER_NOT_FOUND"
        ∧ (scorerNotFoundErr reg name).details.lookup "available_scorers"
            = some (.strList (availableScorers reg))) := by
  rcases hget : reg.get name with _ | c
  · refine ⟨?_, ?_, ?_⟩
    · simp [getScorerRaisesKeyError, ScorerRegistry.getInstance, hget]
    · intro c hc
      simp [resolveScorer, ScorerRegistry.getInstance, hget] at hc
    · intro _
      refine ⟨by simp [resolveScorer, ScorerRegistry.getInstance, hget], rfl, ?_⟩
      simp [scorerNotFoundErr, lookup_cons_eq]
  · have hc := hctor c hget
    refine ⟨?_, ?_, ?_⟩
    · simp [getScorerRaisesKeyError, ScorerRegistry.getInstance, hget, hc]
    · intro c2 hc2
      simp [resolveScorer, ScorerRegistry.getInstance, hget, hc] at hc2
    · intro hk
      exfalso
      simp [getScorerRaisesKeyError, ScorerRegistry.getInstance, hget, hc] at hk

/-- C9 (witness): in the built-in classification registry, resolving an
unknown scorer name raises `KeyError` in `get_scorer` and ends in
`SCORER_NOT_FOUND` listing the two available names. -/
theorem resolveScorer_keyError_witness :
    (getScorerRaisesKeyError classificationRegistry "nope" = true
      ↔ classificationRegistry.get "nope" = none)
    ∧ resolveScorer classificationRegistry "nope"
        = .notFound (scorerNotFoundErr classificationRegistry "nope") := by
  have h := resolveScorer_keyError_means_not_found classificationRegistry "nope"
    (fun c hc => by
      rw [show classificationRegistry.get "nope" = none from by decide] at hc
      cases hc)
  exact ⟨h.1, (h.2.2 (by decide)).1⟩

/-- A provided field value replaces the stored one. -/
theorem keepOr_some (v : α) (old : Option α) : keepOr (some v) old = some v := rfl

/-- An absent (`None`) field keeps the stored value. -/
theorem keepOr_none (old : Option α) : keepOr (none : Option α) old = old := rfl

/-- C8: an upsert on an existing task record updates only the provided
fields (each absent field keeps its stored value, per `keepOr`),
never changes `created_at`, always sets `updated_at` to the current time,
and sets `finished_at` to the current time exactly when the `finished` flag
is passed (otherwise it keeps its stored value). -/
theorem taskUpsert_existing_frame (store : TaskTable) (taskId : String)
    (action workspace state resultJson errorJson : Option String)
    (finished : Bool) (now : ℚ) (r : TaskRecord)
    (h : store.lookup taskId = some r) :
    ∃ r2, (taskUpsert store taskId action workspace state resultJson errorJson
        finished now).lookup taskId = some r2
      ∧ r2.createdAt = r.createdAt
      ∧ r2.updatedAt = now
      ∧ r2.finishedAt = (if finished then some now else r.finishedAt)
      ∧ r2.action = keepOr action r.action
      ∧ r2.workspace = keepOr workspace r.workspace
      ∧ r2.state = keepOr state r.state
      ∧ r2.resultJson = keepOr resultJson r.resultJson
      ∧ r2.errorJson = keepOr errorJson r.errorJson := by
  unfold taskUpsert
  rw [h]
  exact ⟨_, lookup_dinsert_self _ _ _, rfl, rfl, rfl, rfl, rfl, rfl, rfl, rfl⟩

theorem taskUpsert_existing_frame_witness :
    ∃ r2, (taskUpsert [("t1", c8StoredRecord)] "t1"
        none none (some "STARTED") none none false 2).lookup "t1" = some r2
      ∧ r2.createdAt = 1
      ∧ r2.updatedAt = 2
      ∧ r2.finishedAt = (if false then some 2 else none)
      ∧ r2.action = keepOr none (some "run")
      ∧ r2.workspace = keepOr none (some "/w")
      ∧ r2.state = keepOr (some "STARTED") (some "SUBMITTED")
      ∧ r2.resultJson = keepOr none none
      ∧ r2.errorJson = keepOr none none :=
  taskUpsert_existing_frame _ "t1" none none (some "STARTED") none none false 2
    c8StoredRecord (by decide)

/-- C10: a job whose manifest omits `network_policy` (or sets it to `null`)
gets network mode `"none"`, and any provided policy string is lowercased
before the policy→network-mode mapping (`specPolicyToMode`, written from
the spec's mapping table) is applied. -/
theorem networkMode_default_and_lowercase :
    networkModeOf none = "none"
    ∧ ∀ s : String, s ≠ "" → networkModeOf (some s) = specPolicyToMode (pyLower s) := by
  refine ⟨by decide, ?_⟩
  intro s hs
  have hp : policyOrDefault (some s) = s := by
    simp only [policyOrDefault]
    rw [if_neg hs]
  unfold networkModeOf specPolicyToMode
  rw [hp]
  by_cases h1 : pyLower s = "none" <;> by_cases h2 : pyLower s = "host" <;>
    by_cases h3 : pyLower s = "bridge" <;> by_cases h4 : pyLower s = "restricted" <;>
    by_cases h5 : pyLower s = "allowlist" <;> simp_all

/-- C10 (witness): the policy string `"RESTRICTED"` is lowercased and mapped
to network mode `"none"`. -/
theorem networkMode_witness :
    ("RESTRICTED" : String) ≠ ""
    ∧ networkModeOf (some "RESTRICTED") = specPolicyToMode (pyLower "RESTRICTED")
    ∧ networkModeOf (some "RESTRICTED") = "none" :=
  ⟨by decide, networkMode_default_and_lowercase.2 "RESTRICTED" (by decide), by decide⟩

/-- C4: under pull policy `never` with the image absent locally and a
healthy engine (`images.load` succeeds on whatever tarball it is given),
the run loads an existing `image.tar`/`image.tar.gz`/`image.tgz` from the
workspace and records action `loaded_tar` (execution then proceeds to
container creation); with no such tarball it fails with
`IMAGE_NOT_PRESENT`. -/
theorem acquireImage_never_policy (env : ImageEnv)
    (hpol : env.pullPolicy = "never") (habs : env.imagePresent = false)
    (hload : ∀ n, env.loadOk n = true) :
    ((∃ n, n ∈ offlineTarNames ∧ env.tarPresent n = true) →
        acquireImage env = .ok .loadedTar)
    ∧ ((∀ n, n ∈ offlineTarNames → env.tarPresent n = false) →
        ∃ e, acquireImage env = .error e ∧ e.code = "IMAGE_NOT_PRESENT") := by
  constructor
  · rintro ⟨n, hn, hp⟩
    have htl : tryLoadLocalImage env = true := by
      unfold tryLoadLocalImage
      rw [List.any_eq_true]
      exact ⟨n, hn, by rw [hp, hload n]; rfl⟩
    unfold acquireImage
    simp [hpol, habs, htl]
  · intro hnone
    have htl : tryLoadLocalImage env = false := by
      unfold tryLoadLocalImage
      rw [List.any_eq_false]
      intro n hn
      rw [hnone n hn]
      simp
    unfold acquireImage
    simp [hpol, habs, htl]

/-- C4 (witness): with `image.tar` present the acquisition records
`loaded_tar`; with no tarball it fails with `IMAGE_NOT_PRESENT`. -/
theorem acquireImage_never_witness :
    acquireImage c4EnvTar = .ok .loadedTar
    ∧ ∃ e, acquireImage c4EnvNoTar = .error e ∧ e.code = "IMAGE_NOT_PRESENT" :=
  ⟨(acquireImage_never_policy c4EnvTar rfl rfl (fun _ => rfl)).1
      ⟨"image.tar", by simp [offlineTarNames], rfl⟩,
    (acquireImage_never_policy c4EnvNoTar rfl rfl (fun _ => rfl)).2
      (fun _ _ => rfl)⟩

theorem fileInfo_path (fs : FS) (p : String) : (fileInfo fs p).path = p := by
  unfold fileInfo fileInfoOpt
  cases fs.lookup p <;> rfl

/-- Shape of the document `assembleResult` produces: the path is
`output/result.json`, the artifacts carry a `result_json` self-entry, and
the four pipeline timing entries hold the clock differences. -/
theorem assembleResult_shape (encode : ResultM → FileRec) (ck : Clock) (ws : String)
    (tValidate : ℚ) (result : ResultM) (fs1 : FS) :
    (assembleResult encode ck ws tValidate result fs1).2.1 = resultJsonPath ws
    ∧ (((assembleResult encode ck ws tValidate result fs1).1.artifacts.lookup
          "result_json").map (fun i => i.path)) = some (resultJsonPath ws)
    ∧ (assembleResult encode ck ws tValidate result fs1).1.timing.lookup "validate_time"
        = some tValidate
    ∧ (assembleResult encode ck ws tValidate result fs1).1.timing.lookup "compute_time"
        = some (ck.c1 - ck.c0)
    ∧ (assembleResult encode ck ws tValidate result fs1).1.timing.lookup "save_time"
        = some (ck.s1 - ck.s0)
    ∧ (assembleResult encode ck ws tValidate result fs1).1.timing.lookup "total_time"
        = some (ck.tEnd - ck.t0) := by
  refine ⟨rfl, ?_, ?_, ?_, ?_, ?_⟩ <;>
    (unfold assembleResult; simp only [dupdate, List.foldl])
  · rw [lookup_dinsert_self]
    simp [fileInfo_path]
  · rw [lookup_dinsert_other _ _ _ _ (by decide), lookup_dinsert_other _ _ _ _ (by decide),
      lookup_dinsert_other _ _ _ _ (by decide), lookup_dinsert_self]
  · rw [lookup_dinsert_other _ _ _ _ (by decide), lookup_dinsert_other _ _ _ _ (by decide),
      lookup_dinsert_self]
  · rw [lookup_dinsert_other _ _ _ _ (by decide), lookup_dinsert_self]
  · rw [lookup_dinsert_self]

theorem validateStep_ok_values (sc : ScorerImpl) (ck : Clock) (ws : String)
    (params : List (String × ℚ)) (fs : FS) (tv : ℚ)
    (h : validateStep sc ck ws params fs = .ok tv) :
    tv = ck.v1 - ck.v0 ∨ tv = 0 := by
  unfold validateStep at h
  by_cases hv : sc.hasValidate
  · rw [if_pos hv] at h
    cases hr : sc.validate ws params fs with
    | ok u =>
      rw [hr] at h
      injection h with h2
      exact .inl h2.symm
    | error e =>
      rw [hr] at h
      cases e with
      | typedE a => cases h
      | otherE k m => cases h
  · rw [if_neg hv] at h
    injection h with h2
    exact .inr h2.symm

theorem scoreOnlyRest_ok_shape (sc : ScorerImpl) (encode : ResultM → FileRec)
    (ck : Clock) (ws : String) (params : List (String × ℚ)) (fs : FS)
    (r : ResultM) (out : String) (fs3 : FS)
    (hok : scoreOnlyRest sc encode ck ws params fs = .ok (r, out, fs3)) :
    out = resultJsonPath ws
    ∧ (∃ info, r.artifacts.lookup "result_json" = some info ∧ info.path = resultJsonPath ws)
    ∧ (∃ tv, r.timing.lookup "validate_time" = some tv ∧ (tv = ck.v1 - ck.v0 ∨ tv = 0))
    ∧ r.timing.lookup "compute_time" = some (ck.c1 - ck.c0)
    ∧ r.timing.lookup "save_time" = some (ck.s1 - ck.s0)
    ∧ r.timing.lookup "total_time" = some (ck.tEnd - ck.t0) := by
  unfold scoreOnlyRest at hok
  cases hv : validateStep sc ck ws params fs with
  | error e => rw [hv] at hok; cases hok
  | ok tv =>
    rw [hv] at hok
    cases hs : sc.score ws params fs with
    | error e => rw [hs] at hok; cases hok
    | ok p =>
      rw [hs] at hok
      obtain ⟨res, fs1⟩ := p
      injection hok with h
      obtain ⟨h1, h2, h4, h5, h6, h7⟩ := assembleResult_shape encode ck ws tv res fs1
      rw [h] at h1 h2 h4 h5 h6 h7
      refine ⟨h1, ?_, ⟨tv, h4, validateStep_ok_values sc ck ws params fs tv hv⟩, h5, h6, h7⟩
      cases hL : r.artifacts.lookup "result_json" with
      | none => rw [hL] at h2; cases h2
      | some info =>
        rw [hL] at h2
        injection h2 with h3
        exact ⟨info, rfl, h3⟩

/-- C2: every successful `score_only` call returns (and persists at
`output/result.json`) a result whose `artifacts` mapping contains a
`result_json` entry whose `path` is the result file itself (its `size` and
`sha256` are those of the first write, per `ArtifactManager.file_info`),
and whose timing satisfies
`total_time ≥ validate_time + compute_time + save_time` exactly (hence
within any ε ≥ 0), given that the perf counter is monotone across the
eight reads. -/
theorem scoreOnly_success_contract
    (reg : ScorerRegistry) (impl : ScorerClass → ScorerImpl)
    (encode : ResultM → FileRec) (ck : Clock) (ws : String) (meta : JobSpecM)
    (params : List (String × ℚ)) (ov : Option String) (fs : FS)
    (r : ResultM) (out : String) (fs3 : FS)
    (hok : scoreOnly reg impl encode ck ws meta params ov fs = .ok (r, out, fs3))
    (hck : ck.mono) :
    out = resultJsonPath ws
    ∧ (∃ info, r.artifacts.lookup "result_json" = some info ∧ info.path = out)
    ∧ (∃ tv tc ts tt, r.timing.lookup "validate_time" = some tv
        ∧ r.timing.lookup "compute_time" = some tc
        ∧ r.timing.lookup "save_time" = some ts
        ∧ r.timing.lookup "total_time" = some tt
        ∧ tv + tc + ts ≤ tt) := by
  obtain ⟨m1, m2, m3, m4, m5, m6, m7⟩ := hck
  unfold scoreOnly at hok
  cases hr : resolveScorer reg (scorerNameOf meta ov) with
  | notFound e => rw [hr] at hok; cases hok
  | uncaught e => rw [hr] at hok; cases hok
  | okDirect c =>
    rw [hr] at hok
    obtain ⟨h1, ⟨info, hi, hp⟩, ⟨tv, hv, htv⟩, h5, h6, h7⟩ :=
      scoreOnlyRest_ok_shape _ _ _ _ _ _ _ _ _ hok
    refine ⟨h1, ⟨info, hi, by rw [h1]; exact hp⟩,
      tv, ck.c1 - ck.c0, ck.s1 - ck.s0, ck.tEnd - ck.t0, hv, h5, h6, h7, ?_⟩
    rcases htv with rfl | rfl <;> linarith
  | okFallback c =>
    rw [hr] at hok
    obtain ⟨h1, ⟨info, hi, hp⟩, ⟨tv, hv, htv⟩, h5, h6, h7⟩ :=
      scoreOnlyRest_ok_shape _ _ _ _ _ _ _ _ _ hok
    refine ⟨h1, ⟨info, hi, by rw [h1]; exact hp⟩,
      tv, ck.c1 - ck.c0, ck.s1 - ck.s0, ck.tEnd - ck.t0, hv, h5, h6, h7, ?_⟩
    rcases htv with rfl | rfl <;> linarith

section ConcreteRuns

attribute [local semireducible] Rat.mul Rat.inv Rat.add Rat.sub

/-- C3: on the classification happy-path workspace, `score_only` succeeds
and the returned Result has `summary.score == 1.0`, `summary.rank == "A"`
and `summary.pass == true`. -/
theorem classification_happy_path :
    (scoreOnlyC3.toOption.map (fun p =>
      (p.1.summary.lookup "score", p.1.summary.lookup "rank", p.1.summary.lookup "pass")))
    = some (some (.num 1), some (.str "A"), some (.bool true)) := by
  decide

/-- C2 (witness): the contract evaluated on the happy-path run. -/
theorem scoreOnly_success_contract_witness :
    clockEx.mono
    ∧ (c3Payload.2.1 = resultJsonPath wsEx
      ∧ (∃ info, c3Payload.1.artifacts.lookup "result_json" = some info
          ∧ info.path = c3Payload.2.1)
      ∧ (∃ tv tc ts tt, c3Payload.1.timing.lookup "validate_time" = some tv
          ∧ c3Payload.1.timing.lookup "compute_time" = some tc
          ∧ c3Payload.1.timing.lookup "save_time" = some ts
          ∧ c3Payload.1.timing.lookup "total_time" = some tt
          ∧ tv + tc + ts ≤ tt)) := by
  have hm : clockEx.mono := by unfold Clock.mono; decide
  have hok : scoreOnlyC3 = .ok (c3Payload.1, c3Payload.2.1, c3Payload.2.2) := by decide
  exact ⟨hm, scoreOnly_success_contract classificationRegistry implEx encodeEx clockEx
    wsEx metaEx [] none fsEx c3Payload.1 c3Payload.2.1 c3Payload.2.2 hok hm⟩

/-- C5 (counterexample): on the id-mismatch workspace, `score_only` does
fail with a `MISMATCH` error, but no value of its `details` dictionary
names the missing id `3` or the extra id `4` — the details carry only the
four counts, so the claim that the details enumerate the ids is false. -/
theorem mismatch_details_counterexample :
    ¬ ∃ e, scoreOnlyC5 = .error (.typedE e) ∧ e.code = "MISMATCH"
      ∧ detailsMention e.details "3" = true ∧ detailsMention e.details "4" = true := by
  rintro ⟨e, he, hcode, h3, h4⟩
  have hc : scoreOnlyC5 = .error (.typedE c5Err) := by decide
  rw [hc] at he
  injection he with h1
  injection h1 with h2
  rw [← h2] at h3
  exact absurd h3 (by decide)

/-- C5 (amended): the id-mismatch workspace fails with a `MISMATCH` error
whose message enumerates the missing and extra ids (in Python `repr` form,
up to five each) and whose `details` carry the counts of ground-truth,
prediction, missing and extra ids. -/
theorem mismatch_error_shape :
    scoreOnlyC5 = .error (.typedE c5Err)
    ∧ c5Err.code = "MISMATCH"
    ∧ strHasSubstr c5Err.message (pyReprStr "3") = true
    ∧ strHasSubstr c5Err.message (pyReprStr "4") = true
    ∧ c5Err.details = [("gt_count", .int 3), ("pred_count", .int 3),
        ("missing_in_pred", .int 1), ("extra_in_pred", .int 1)] := by
  refine ⟨by decide, by decide, by decide, by decide, by decide⟩

/-- C1 (counterexample): when the run stage fails, `run_and_score` returns
the flat `make_error("run", ...)` payload but persists nothing: there is no
`output/result.json` afterwards, refuting the claim that a result document
with a stage-scoped error is persisted on failure of either stage. -/
theorem runAndScore_run_failure_counterexample :
    runAndScoreC1.1 = .runFailure (makeError "run" "TIMEOUT_ERROR"
      "container execution timed out after 1800 seconds" []
      (some (wsEx ++ "/logs/container.log")))
    ∧ (runAndScoreC1.2.lookup (resultJsonPath wsEx)).isSome = false := by
  exact ⟨by decide, by decide⟩

/-- C1 (amended): `run_and_score` is total (it returns a payload rather
than raising).  On a run-stage failure it returns the `make_error` payload
scoped to stage `"run"` with the container-log path, leaving the
filesystem unchanged (no result document is persisted).  On a score-stage
failure it persists `output/result.json` holding a Result whose `error`
object is scoped to stage `"score"`, and returns that Result's dump. -/
theorem runAndScore_error_envelopes
    (runOutcome : Except PyExc Unit) (reg : ScorerRegistry)
    (impl : ScorerClass → ScorerImpl) (encode : ResultM → FileRec) (ck : Clock)
    (ws : String) (meta : JobSpecM) (params : List (String × ℚ))
    (ov : Option String) (fs : FS) :
    (∀ e, runOutcome = .error e →
      ∃ p, runAndScore runOutcome reg impl encode ck ws meta params ov fs
          = (.runFailure p, fs)
        ∧ p.stage = "run" ∧ p.logs = some (ws ++ "/logs/container.log"))
    ∧ (∀ e, runOutcome = .ok () →
        scoreOnly reg impl encode ck ws meta params ov fs = .error e →
      ∃ res, runAndScore runOutcome reg impl encode ck ws meta params ov fs
          = (.scoreFailure res, writeFile fs (resultJsonPath ws) (encode res))
        ∧ ∃ p, res.error = some p ∧ p.stage = "score") := by
  constructor
  · rintro e rfl
    cases e with
    | typedE a => exact ⟨_, rfl, rfl, rfl⟩
    | otherE k m => exact ⟨_, rfl, rfl, rfl⟩
  · rintro e rfl hs
    unfold runAndScore
    rw [hs]
    cases e with
    | typedE a => exact ⟨_, rfl, _, rfl, rfl⟩
    | otherE k m => exact ⟨_, rfl, _, rfl, rfl⟩

/-- C1 (witness): the amended statement applied to a run failure (the
payload is returned, nothing persisted) and to a score failure
(`SCORER_NOT_FOUND` for an unregistered scorer name is persisted with
stage `"score"`). -/
theorem runAndScore_error_envelopes_witness :
    (∃ p, runAndScore runErrC1 classificationRegistry implEx encodeEx clockEx
        wsEx metaEx [] none [] = (.runFailure p, [])
      ∧ p.stage = "run" ∧ p.logs = some (wsEx ++ "/logs/container.log"))
    ∧ (∃ res, runAndScore (.ok ()) classificationRegistry implEx encodeEx clockEx
        wsEx { scorer := "nope" } [] none []
          = (.scoreFailure res, writeFile [] (resultJsonPath wsEx) (encodeEx res))
      ∧ ∃ p, res.error = some p ∧ p.stage = "score") :=
  ⟨(runAndScore_error_envelopes runErrC1 classificationRegistry implEx encodeEx clockEx
      wsEx metaEx [] none []).1
    (.typedE
      { code := "TIMEOUT_ERROR",
        message := "container execution timed out after 1800 seconds" }) rfl,
   (runAndScore_error_envelopes (.ok ()) classificationRegistry implEx encodeEx clockEx
      wsEx { scorer := "nope" } [] none []).2
    (.typedE (scorerNotFoundErr classificationRegistry "nope")) rfl (by decide)⟩

end ConcreteRuns
